import Mathlib

/-!
A shallow embedding of the scriptable core of the privly-applications
repository (src/Index/js/new.js): the named-callback state machine, the
iframe embedder with its app-name gate, the resize message listener and
the post-url relay.  Pure string manipulation from the source is embedded
as executable functions on character lists; the DOM regions the script
touches become fields of an explicit state record, and each handler
becomes a state transformer that additionally reports whether it threw a
JavaScript exception.  Theorems checking the specification's claims
follow the definitions.
-/

/-- The two exception shapes the handlers in new.js can raise in this
model: dereferencing a null element and calling a method on undefined. -/
inductive JsError where
  | nullDeref
  | typeError
deriving DecidableEq

/-- A DOM element as the embedder uses it: the attribute list written by
setAttribute, plus the style.height slot written by the resize handler. -/
structure DomElement where
  attrs : List (String × String)
  styleHeight : String
deriving DecidableEq

/-- element.setAttribute: overwrite the attribute in place when present,
otherwise append it. -/
def setAttr (attrs : List (String × String)) (k v : String) : List (String × String) :=
  if attrs.any (fun p => p.1 == k) then
    attrs.map (fun p => if p.1 == k then (k, v) else p)
  else attrs ++ [(k, v)]

/-- element.getAttribute: the first binding of the name, if any. -/
def getAttr (attrs : List (String × String)) (k : String) : Option String :=
  (attrs.find? (fun p => p.1 == k)).map (fun p => p.2)

/-- Splitting a character list on a separator character, accumulator form. -/
def splitOnCharAux (sep : Char) : List Char → List Char → List (List Char)
  | [], acc => [acc.reverse]
  | c :: t, acc =>
    if c == sep then acc.reverse :: splitOnCharAux sep t []
    else splitOnCharAux sep t (c :: acc)

/-- JavaScript String.prototype.split with a single-character separator. -/
def jsSplit (s : String) (sep : Char) : List String :=
  (splitOnCharAux sep s.data []).map (fun l => ⟨l⟩)

/-- Index of the first occurrence of pat in a character list. -/
def idxOfL (pat : List Char) : List Char → Option Nat
  | [] => if pat.isEmpty then some 0 else none
  | c :: t =>
    if pat.isPrefixOf (c :: t) then some 0
    else (idxOfL pat t).map (fun n => n + 1)

/-- JavaScript String.prototype.indexOf: first index, or -1 when absent. -/
def jsIndexOf (s pat : String) : Int :=
  match idxOfL pat.data s.data with
  | some n => (n : Int)
  | none => -1

/-- JavaScript String.prototype.replace with a string pattern: it
replaces only the first occurrence and leaves the string unchanged when
the pattern does not occur. -/
def replaceFirstL (pat rep : List Char) : List Char → List Char
  | [] => []
  | c :: t =>
    if pat.isPrefixOf (c :: t) then rep ++ (c :: t).drop pat.length
    else c :: replaceFirstL pat rep t

/-- String form of replaceFirstL. -/
def jsReplace (s pat rep : String) : String :=
  ⟨replaceFirstL pat.data rep.data s.data⟩

/-- JavaScript coercion of a possibly-undefined string value to a string,
as performed by RegExp.test and by string concatenation. -/
def jsStringOf : Option String → String
  | some s => s
  | none => "undefined"

/-- arr[i] on a JavaScript string array, coerced to a string: out of
range yields undefined, which prints as "undefined". -/
def jsAt (l : List String) (i : Nat) : String :=
  (l[i]?).getD "undefined"

/-- Value of a hexadecimal digit character, if it is one. -/
def hexDigit (c : Char) : Option Nat :=
  if 48 ≤ c.toNat ∧ c.toNat ≤ 57 then some (c.toNat - 48)
  else if 97 ≤ c.toNat ∧ c.toNat ≤ 102 then some (c.toNat - 87)
  else if 65 ≤ c.toNat ∧ c.toNat ≤ 70 then some (c.toNat - 55)
  else none

/-- Percent-decoding on a character list; none on malformed input. -/
def percentDecodeL : List Char → Option (List Char)
  | [] => some []
  | '%' :: a :: b :: t =>
    match hexDigit a, hexDigit b, percentDecodeL t with
    | some hi, some lo, some rest => some (Char.ofNat (16 * hi + lo) :: rest)
    | _, _, _ => none
  | '%' :: _ => none
  | c :: t => (percentDecodeL t).map (fun l => c :: l)

/-- Percent-decoding of a string; per the spec, decoding failure returns
the raw string rather than crashing. -/
def percentDecode (s : String) : String :=
  match percentDecodeL s.data with
  | some l => ⟨l⟩
  | none => s

/-- Modelled from the spec: privlyParameters.parameterStringToHash lives
in shared/javascripts/parameters.js, which is not under src/.  Per spec
section 4.1 the codec takes key=value pairs joined by "&", maps each key
to its decoded value (the key is everything before the first "="), and on
malformed percent-encoding returns the raw string for that value.  A
chunk with no "=" receives the JS undefined placeholder as its value. -/
def parameterStringToHash (s : String) : List (String × String) :=
  (jsSplit s '&').map (fun chunk =>
    match idxOfL ['='] chunk.data with
    | some i => (⟨chunk.data.take i⟩, percentDecode ⟨chunk.data.drop (i + 1)⟩)
    | none => (chunk, "undefined"))

/-- Property lookup on the decoded hash: a JS object keeps the last
assignment made for a repeated key. -/
def hashLookup (h : List (String × String)) (k : String) : Option String :=
  (h.reverse.find? (fun p => p.1 == k)).map (fun p => p.2)

/-- Character class of the regex literal on new.js line 135. -/
def isAsciiLetter (c : Char) : Bool :=
  decide ((65 ≤ c.toNat ∧ c.toNat ≤ 90) ∨ (97 ≤ c.toNat ∧ c.toNat ≤ 122))

/-- The test performed by the regex literal on new.js line 135: the whole
string is one or more ASCII letters. -/
def alphaRegexTest (s : String) : Bool :=
  !s.data.isEmpty && s.data.all isAsciiLetter

/-- The six named callbacks of the state machine in new.js. -/
inductive CallbackId where
  | pendingLogin
  | loginFailure
  | pendingPost
  | postSubmit
  | createError
  | postCompleted
deriving DecidableEq

/-- One record of the post-list response, fields per spec section 3. -/
structure PostRecord where
  privly_URL : String
  created_at : String
  updated_at : String
  burn_after_date : String
  privly_application : String
  public : Bool
deriving DecidableEq

/-- The response object handed to the success callback of the post-list
fetch: its json field is the array of post records. -/
structure FetchResponse where
  json : List PostRecord
deriving DecidableEq

/-- Modelled from the spec: privlyNetworkService.sameOriginGetRequest
(shared/javascripts/network_service.js, not under src/) performs an
asynchronous GET and hands the response to the continuation it was given.
new.js line 85 passes it exactly one continuation, so a pending request
records a success continuation and nothing else: no failure continuation
exists anywhere for this request. -/
structure PendingRequest where
  url : String
  onSuccess : CallbackId
deriving DecidableEq

/-- The page state touched by new.js: the message area, the posts table,
the iframe container and its labels, the bootstrap column classes the
click handler toggles, the registered listeners and callbacks, and the
collaborator parameters (platform name, content server domain, page
origin). -/
structure AppState where
  platform : String
  contentServerDomain : String
  pageOrigin : String
  messages : String
  postsRows : List (List String)
  dataTableInit : Bool
  iframeContainer : List DomElement
  iframeTitle : String
  iframeMeta : String
  tableColLg12 : Bool
  tableColLg8 : Bool
  iframeColLg4 : Bool
  iframeColDisplay : String
  viewHandlers : Nat
  resizeListener : Bool
  navInitialized : Bool
  messagingInit : Bool
  secretEventFired : Bool
  loggedInNavShown : Bool
  messageLinkHidden : Bool
  messageLinkListener : Bool
  ajaxIndicators : Bool
  sessionCallbacks : Option (CallbackId × CallbackId × CallbackId)
  pendingRequest : Option PendingRequest
  firedUrls : List (Option String)
deriving DecidableEq

/-- Result of running a handler: the state as left behind, plus the
exception that escaped it, if any. -/
structure JsOutcome where
  state : AppState
  thrown : Option JsError
deriving DecidableEq

/-- A fresh page before DOMContentLoaded, parameterised by the
collaborator-supplied platform name, content server domain and origin. -/
def initialState (platform domain origin : String) : AppState where
  platform := platform
  contentServerDomain := domain
  pageOrigin := origin
  messages := ""
  postsRows := []
  dataTableInit := false
  iframeContainer := []
  iframeTitle := ""
  iframeMeta := ""
  tableColLg12 := true
  tableColLg8 := false
  iframeColLg4 := false
  iframeColDisplay := "none"
  viewHandlers := 0
  resizeListener := false
  navInitialized := false
  messagingInit := false
  secretEventFired := false
  loggedInNavShown := false
  messageLinkHidden := false
  messageLinkListener := false
  ajaxIndicators := false
  sessionCallbacks := none
  pendingRequest := none
  firedUrls := []

/-- The sign-in prompt rendered by callbacks.loginFailure (lines 70-73),
built from the collaborator's content server domain. -/
def signInPrompt (domain : String) : String :=
  "We were unable to sign you into your content server please " ++
    "<a href=\x27" ++ domain ++ "/users/sign_in\x27 target=\x27_blank\x27>sign in</a> to " ++
    "<a href=\x27\x27>continue</a>"

/-- callbacks.loginFailure (lines 69-74): writes the sign-in prompt into
the message area. -/
def loginFailure (st : AppState) : AppState :=
  { st with messages := signInPrompt st.contentServerDomain }

/-- callbacks.pendingPost (lines 79-90): shows the logged-in navigation,
initialises the table widget, issues the same-origin GET for the post
list handing it only callbacks.postCompleted, and clears the message
area. -/
def pendingPost (st : AppState) : AppState :=
  { st with
    loggedInNavShown := true
    dataTableInit := true
    pendingRequest := some
      { url := st.contentServerDomain ++ "/posts", onSuccess := CallbackId.postCompleted }
    messages := "" }

/-- callbacks.createError (lines 102-104): writes the static fetch-error
text into the message area. -/
def createError (st : AppState) : AppState :=
  { st with messages := "There was an error fetching your posts." }

/-- callbacks.pendingLogin (lines 32-63): navigation and messaging setup,
the platform branch around the posting button, the resize listener, the
ajax indicators, and finally the session check registration.  Modelled
from the spec where the collaborator is missing from src/:
privlyNetworkService.initPrivlyService records one success and two
failure continuations for the session check; exactly one of them will be
invoked by the collaborator. -/
def pendingLogin (st : AppState) : AppState :=
  { st with
    navInitialized := true
    messagingInit := true
    secretEventFired := true
    messageLinkHidden := if st.platform == "HOSTED" then true else st.messageLinkHidden
    messageLinkListener := if st.platform == "HOSTED" then st.messageLinkListener else true
    resizeListener := true
    ajaxIndicators := true
    sessionCallbacks :=
      some (CallbackId.pendingPost, CallbackId.loginFailure, CallbackId.loginFailure) }

/-- Lines 112-114: the manage URL derived from the decoded privlyDataURL,
replacing the first "format=json" with "format=html" and then the first
".json" with ".html". -/
def manageURLString (d : String) : String :=
  jsReplace (jsReplace d "format=json" "format=html") ".json" ".html"

/-- Lines 112-122: the table row built for one post record, or none when
the record's privly_URL decodes without a privlyDataURL key, in which
case the undefined value has no replace method and the handler throws. -/
def rowOf (r : PostRecord) : Option (List String) :=
  match hashLookup (parameterStringToHash r.privly_URL) "privlyDataURL" with
  | none => none
  | some d =>
    some
      ["<a href=\x27#\x27 class=\x27view_link\x27 data-privly-app-link=\x27" ++
         r.privly_URL ++ "\x27>View</a>",
       "<a target=\x27_blank\x27 href=" ++ manageURLString d ++ ">Manage</a>",
       r.created_at,
       r.burn_after_date,
       r.updated_at,
       r.privly_application,
       if r.public then "true" else "false"]

/-- The loop of lines 110-123: append one row per record until a record
throws. -/
def addRows (st : AppState) : List PostRecord → JsOutcome
  | [] => ⟨st, none⟩
  | r :: rs =>
    match rowOf r with
    | some row => addRows { st with postsRows := st.postsRows ++ [row] } rs
    | none => ⟨st, some JsError.typeError⟩

/-- Line 133: the parameter string of a link, everything after the first
question mark (the whole string when there is none, since indexOf yields
-1 and substr starts at 0). -/
def paramsOf (href : String) : String :=
  ⟨href.data.drop (jsIndexOf href "?" + 1).toNat⟩

/-- Lines 137-165: the preview iframe, its attributes set in source
order (frameborder is set twice with the same value). -/
def buildIframe (href params app : String) : DomElement where
  attrs :=
    setAttr (setAttr (setAttr (setAttr (setAttr (setAttr (setAttr (setAttr
      (setAttr (setAttr (setAttr (setAttr (setAttr (setAttr (setAttr (setAttr
        [] "frameborder" "0")
        "vspace" "0")
        "hspace" "0")
        "width" "100%")
        "marginwidth" "0")
        "marginheight" "0")
        "height" "1px")
        "frameborder" "0")
        "style" ("width: 100%; height: 32px; " ++ "overflow: hidden;"))
        "scrolling" "no")
        "overflow" "hidden")
        "data-privly-accept-resize" "true")
        "data-canonical-href" href)
        "src" ("../" ++ app ++ "/show.html?" ++ params))
        "id" "ifrm0")
        "name" "ifrm0"
  styleHeight := ""

/-- The delegated click handler body of lines 125-175: toggle the column
classes, decode the link's parameters, and only when the decoded app name
passes the letters-only test, replace the container's contents with the
freshly built iframe and relabel it. -/
def viewClickOnce (href : String) (st : AppState) : AppState :=
  let st1 := { st with
    tableColLg12 := false
    iframeColLg4 := true
    tableColLg8 := true
    iframeColDisplay := "inherit" }
  let params := paramsOf href
  let app := jsStringOf (hashLookup (parameterStringToHash params) "privlyApp")
  if alphaRegexTest app then
    { st1 with
      iframeContainer := [buildIframe href params app]
      iframeTitle := app
      iframeMeta := "The App\x27s contents are below." }
  else st1

/-- callbacks.postCompleted (lines 109-176): add one table row per
record, then register one more delegated click handler for view links on
the document body. -/
def postCompleted (resp : FetchResponse) (st : AppState) : JsOutcome :=
  match addRows st resp.json with
  | ⟨st2, none⟩ => ⟨{ st2 with viewHandlers := st2.viewHandlers + 1 }, none⟩
  | ⟨st2, some e⟩ => ⟨st2, some e⟩

/-- Whether an element is the preview iframe getElementById finds. -/
def isIfrm (el : DomElement) : Bool :=
  getAttr el.attrs "id" == some "ifrm0"

/-- The element document.getElementById("ifrm0") returns, if any. -/
def findIfrm (st : AppState) : Option DomElement :=
  st.iframeContainer.find? isIfrm

/-- Write style.height on the first element with id ifrm0, as the
assignment on line 224 does. -/
def setHeightFirst : List DomElement → String → List DomElement
  | [], _ => []
  | el :: t, h =>
    if isIfrm el then { el with styleHeight := h } :: t
    else el :: setHeightFirst t h

/-- The style.height of the preview iframe, if the iframe exists. -/
def getIfrmHeight (st : AppState) : Option String :=
  (findIfrm st).map (fun el => el.styleHeight)

/-- resizeIframePostedMessage (lines 222-226): only for a message whose
origin equals the page's own origin, set the preview iframe's height to
the second comma-separated field of the data suffixed with "px";
dereferencing the element throws when no preview iframe exists. -/
def resizeIframePostedMessage (origin data : String) (st : AppState) : JsOutcome :=
  if origin == st.pageOrigin then
    match findIfrm st with
    | none => ⟨st, some JsError.nullDeref⟩
    | some _ =>
      ⟨{ st with iframeContainer :=
           setHeightFirst st.iframeContainer (jsAt (jsSplit data ',') 1 ++ "px") }, none⟩
  else ⟨st, none⟩

/-- postUrl (lines 232-235): relay the preview iframe's canonical href to
the extension; dereferencing the element throws when no preview iframe
exists. -/
def postUrl (st : AppState) : JsOutcome :=
  match findIfrm st with
  | none => ⟨st, some JsError.nullDeref⟩
  | some el =>
    ⟨{ st with firedUrls := st.firedUrls ++ [getAttr el.attrs "data-canonical-href"] }, none⟩

/-- The events the page can receive: DOMContentLoaded, the session-check
outcome (modelled from the spec: the collaborator invokes exactly one of
the three registered continuations), the post-list fetch outcome
(modelled from the spec: delivered to the continuations the request
recorded - there is no failure continuation), a click on a view link
carrying that link's data-privly-app-link value, a window message, and a
click on the posting button. -/
inductive PageEvent where
  | domReady
  | sessionCheckSuccess
  | sessionCheckFailure1
  | sessionCheckFailure2
  | fetchSuccess (resp : FetchResponse)
  | fetchFailure
  | viewClick (href : String)
  | windowMessage (origin data : String)
  | postUrlClick
deriving DecidableEq

/-- Invoke a registered callback that receives no argument; invoking the
response-consuming callback without a response throws on
response.json. -/
def runCallback (c : CallbackId) (st : AppState) : JsOutcome :=
  match c with
  | CallbackId.pendingLogin => ⟨pendingLogin st, none⟩
  | CallbackId.loginFailure => ⟨loginFailure st, none⟩
  | CallbackId.pendingPost => ⟨pendingPost st, none⟩
  | CallbackId.postSubmit => ⟨st, none⟩
  | CallbackId.createError => ⟨createError st, none⟩
  | CallbackId.postCompleted => ⟨st, some JsError.typeError⟩

/-- Invoke the success continuation of a fetch with its response. -/
def runFetchCallback (c : CallbackId) (resp : FetchResponse) (st : AppState) : JsOutcome :=
  match c with
  | CallbackId.postCompleted => postCompleted resp st
  | c => runCallback c st

/-- One step of the event-driven page: each event runs the handler the
page has registered for it, or does nothing when none is registered.  An
exception escaping a handler is reported but does not stop the page. -/
def stepEvent (st : AppState) (e : PageEvent) : JsOutcome :=
  match e with
  | PageEvent.domReady => ⟨pendingLogin st, none⟩
  | PageEvent.sessionCheckSuccess =>
    match st.sessionCallbacks with
    | some (s, _, _) => runCallback s st
    | none => ⟨st, none⟩
  | PageEvent.sessionCheckFailure1 =>
    match st.sessionCallbacks with
    | some (_, f1, _) => runCallback f1 st
    | none => ⟨st, none⟩
  | PageEvent.sessionCheckFailure2 =>
    match st.sessionCallbacks with
    | some (_, _, f2) => runCallback f2 st
    | none => ⟨st, none⟩
  | PageEvent.fetchSuccess resp =>
    match st.pendingRequest with
    | some pr => runFetchCallback pr.onSuccess resp { st with pendingRequest := none }
    | none => ⟨st, none⟩
  | PageEvent.fetchFailure =>
    match st.pendingRequest with
    | some _ => ⟨{ st with pendingRequest := none }, none⟩
    | none => ⟨st, none⟩
  | PageEvent.viewClick href =>
    ⟨Nat.iterate (viewClickOnce href) st.viewHandlers st, none⟩
  | PageEvent.windowMessage origin data =>
    if st.resizeListener then resizeIframePostedMessage origin data st else ⟨st, none⟩
  | PageEvent.postUrlClick =>
    if st.messageLinkListener then postUrl st else ⟨st, none⟩

/-- Run a sequence of events; the browser keeps dispatching events even
after a handler threw. -/
def stepTrace (st : AppState) (evs : List PageEvent) : AppState :=
  evs.foldl (fun s e => (stepEvent s e).state) st

/-! ## String lemmas -/

theorem strApp_data (s t : String) : (s ++ t).data = s.data ++ t.data := rfl

theorem isPrefixOf_self_append (l t : List Char) : l.isPrefixOf (l ++ t) = true := by
  induction l with
  | nil => cases t <;> rfl
  | cons c l' ih => simp [List.isPrefixOf, ih]

theorem idxOf_mark (pre post : List Char) (h : '?' ∉ pre) :
    idxOfL ['?'] (pre ++ '?' :: post) = some pre.length := by
  induction pre with
  | nil =>
    simp [idxOfL, List.isPrefixOf]
  | cons c t ih =>
    have hc : ('?' == c) = false := by
      have : c ≠ '?' := fun hcc => h (by simp [hcc])
      simp [BEq.beq]
      exact fun hcc => this hcc.symm
    have ht : '?' ∉ t := fun hm => h (List.mem_cons_of_mem _ hm)
    simp [idxOfL, List.isPrefixOf, hc, ih ht]

theorem paramsOf_concat (pre post : String) (h : '?' ∉ pre.data) :
    paramsOf (pre ++ "?" ++ post) = post := by
  have hdata : (pre ++ "?" ++ post).data = pre.data ++ '?' :: post.data := by
    rw [strApp_data, strApp_data]
    simp
  unfold paramsOf jsIndexOf
  rw [hdata]
  have hq : ("?" : String).data = ['?'] := rfl
  rw [hq, idxOf_mark _ _ h]
  have htn : (((pre.data.length : Nat) : Int) + 1).toNat = pre.data.length + 1 := by omega
  simp only [htn]
  have hsplit : pre.data ++ '?' :: post.data = (pre.data ++ ['?']) ++ post.data := by simp
  rw [hsplit]
  have hlen : pre.data.length + 1 = (pre.data ++ ['?']).length := by simp
  rw [hlen, List.drop_left]

/-- If the pattern occurs nowhere (checked at every start position up to
the length), a first-occurrence replace returns the string unchanged. -/
theorem replaceFirstL_no_occur (pat rep s : List Char)
    (h : ∀ i, i ≤ s.length → pat.isPrefixOf (s.drop i) = false) :
    replaceFirstL pat rep s = s := by
  induction s with
  | nil => rfl
  | cons c t ih =>
    have h0 : pat.isPrefixOf (c :: t) = false := by
      have := h 0 (Nat.zero_le _)
      simpa using this
    have ht : ∀ i, i ≤ t.length → pat.isPrefixOf (t.drop i) = false := by
      intro i hi
      have := h (i + 1) (by simpa using Nat.succ_le_succ hi)
      simpa using this
    simp [replaceFirstL, h0, ih ht]

/-- If the first occurrence of the pattern is exactly at the end of a,
a first-occurrence replace rewrites precisely that occurrence. -/
theorem replaceFirstL_at_first (pat rep a b : List Char) (hne : pat ≠ [])
    (h : ∀ i, i < a.length → pat.isPrefixOf ((a ++ pat ++ b).drop i) = false) :
    replaceFirstL pat rep (a ++ pat ++ b) = a ++ rep ++ b := by
  induction a with
  | nil =>
    match pat, hne with
    | p0 :: ps, _ =>
      have hp : (p0 :: ps).isPrefixOf ((p0 :: ps) ++ b) = true :=
        isPrefixOf_self_append _ _
      have hcons : ([] ++ (p0 :: ps) ++ b) = p0 :: (ps ++ b) := by simp
      rw [hcons]
      have hp' : (p0 :: ps).isPrefixOf (p0 :: (ps ++ b)) = true := by
        simp only [List.cons_append] at hp
        exact hp
      simp only [replaceFirstL, hp', if_pos]
      have hdrop : (p0 :: (ps ++ b)).drop (p0 :: ps).length = b := by
        have h2 : p0 :: (ps ++ b) = (p0 :: ps) ++ b := by simp
        rw [h2, List.drop_left]
      rw [hdrop]
      simp
  | cons c a' ih =>
    have h0 : pat.isPrefixOf (c :: (a' ++ pat ++ b)) = false := by
      have := h 0 (Nat.succ_pos _)
      simpa using this
    have ha' : ∀ i, i < a'.length → pat.isPrefixOf ((a' ++ pat ++ b).drop i) = false := by
      intro i hi
      have := h (i + 1) (by simpa using Nat.succ_lt_succ hi)
      simpa using this
    have hcons : ((c :: a') ++ pat ++ b) = c :: (a' ++ pat ++ b) := by simp
    rw [hcons]
    simp only [replaceFirstL, h0]
    rw [ih ha']
    simp

/-! ## Handler bookkeeping lemmas -/

/-- The delegated click handler body leaves the message area, the posts
table, the pending request, the registered session callbacks, the server
domain and the handler count untouched; it only rewrites the column
classes, the iframe container and its labels. -/
theorem viewClickOnce_fields (href : String) (st : AppState) :
    (viewClickOnce href st).messages = st.messages ∧
    (viewClickOnce href st).postsRows = st.postsRows ∧
    (viewClickOnce href st).pendingRequest = st.pendingRequest ∧
    (viewClickOnce href st).sessionCallbacks = st.sessionCallbacks ∧
    (viewClickOnce href st).contentServerDomain = st.contentServerDomain ∧
    (viewClickOnce href st).viewHandlers = st.viewHandlers := by
  simp only [viewClickOnce]
  split <;> exact ⟨rfl, rfl, rfl, rfl, rfl, rfl⟩

/-- A property preserved by one application of a function is preserved by
any number of iterations. -/
theorem iterate_preserves (f : AppState → AppState) (P : AppState → Prop)
    (h : ∀ s, P s → P (f s)) : ∀ (n : Nat) (s : AppState), P s → P (f^[n] s) := by
  intro n
  induction n with
  | zero => intro s hs; simpa using hs
  | succ m ih =>
    intro s hs
    rw [Function.iterate_succ_apply]
    exact ih (f s) (h s hs)

/-- The row loop touches only the posts table. -/
theorem addRows_fields (rs : List PostRecord) : ∀ (st : AppState),
    (addRows st rs).state.messages = st.messages ∧
    (addRows st rs).state.iframeContainer = st.iframeContainer ∧
    (addRows st rs).state.viewHandlers = st.viewHandlers ∧
    (addRows st rs).state.pendingRequest = st.pendingRequest ∧
    (addRows st rs).state.sessionCallbacks = st.sessionCallbacks ∧
    (addRows st rs).state.contentServerDomain = st.contentServerDomain := by
  induction rs with
  | nil => intro st; exact ⟨rfl, rfl, rfl, rfl, rfl, rfl⟩
  | cons r rs' ih =>
    intro st
    simp only [addRows]
    match rowOf r with
    | some row => exact ih { st with postsRows := st.postsRows ++ [row] }
    | none => exact ⟨rfl, rfl, rfl, rfl, rfl, rfl⟩

/-- When every record produces a row, the loop finishes without throwing
and appends exactly the produced rows. -/
theorem addRows_ok (rs : List PostRecord) (hall : ∀ r ∈ rs, (rowOf r).isSome) :
    ∀ (st : AppState),
      (addRows st rs).thrown = none ∧
      (addRows st rs).state.postsRows =
        st.postsRows ++ rs.map (fun r => (rowOf r).getD []) := by
  induction rs with
  | nil => intro st; exact ⟨rfl, by simp [addRows]⟩
  | cons r rs' ih =>
    intro st
    have hr : (rowOf r).isSome := hall r (List.mem_cons_self r rs')
    have hall' : ∀ r' ∈ rs', (rowOf r').isSome := fun r' hr' =>
      hall r' (List.mem_cons_of_mem _ hr')
    match hrow : rowOf r with
    | some row =>
      have := ih hall' { st with postsRows := st.postsRows ++ [row] }
      simp only [addRows, hrow]
      refine ⟨this.1, ?_⟩
      rw [this.2]
      simp [hrow]
    | none => simp [hrow] at hr

/-- Writing the preview iframe's height preserves the container's
length. -/
theorem setHeightFirst_length (l : List DomElement) (h : String) :
    (setHeightFirst l h).length = l.length := by
  induction l with
  | nil => rfl
  | cons el t ih =>
    simp only [setHeightFirst]
    split <;> simp [ih]

/-- After writing the preview iframe's height, looking the iframe up
again yields exactly the written height. -/
theorem getIfrmHeight_setHeightFirst (l : List DomElement) (h : String)
    (hsome : (l.find? isIfrm).isSome) :
    ((setHeightFirst l h).find? isIfrm).map (fun el => el.styleHeight) = some h := by
  induction l with
  | nil => simp [List.find?] at hsome
  | cons el t ih =>
    by_cases hel : isIfrm el
    · have hel' : isIfrm { el with styleHeight := h } := by
        simpa [isIfrm] using hel
      simp [setHeightFirst, hel, hel', List.find?_cons_of_pos]
    · have hsome' : (t.find? isIfrm).isSome := by
        simpa [List.find?_cons_of_neg, hel] using hsome
      simp [setHeightFirst, hel, List.find?_cons_of_neg, ih hsome']

/-- The state a failed session leaves behind and keeps: an empty posts
table, no pending request, the sign-in prompt on display, and the
callback registration made by pendingLogin. -/
def SessionQ (d : String) (st : AppState) : Prop :=
  st.contentServerDomain = d ∧
  st.postsRows = [] ∧
  st.pendingRequest = none ∧
  st.messages = signInPrompt d ∧
  st.sessionCallbacks =
    some (CallbackId.pendingPost, CallbackId.loginFailure, CallbackId.loginFailure)

/-- Any event other than a session-check success and DOMContentLoaded
preserves the failed-session state. -/
theorem sessionQ_step (d : String) (st : AppState) (e : PageEvent)
    (hq : SessionQ d st) (h1 : e ≠ PageEvent.sessionCheckSuccess)
    (h2 : e ≠ PageEvent.domReady) : SessionQ d (stepEvent st e).state := by
  obtain ⟨hd, hrows, hpend, hmsg, hcb⟩ := hq
  cases e with
  | domReady => exact absurd rfl h2
  | sessionCheckSuccess => exact absurd rfl h1
  | sessionCheckFailure1 =>
    simp only [stepEvent, hcb, runCallback, loginFailure]
    exact ⟨hd, hrows, hpend, by rw [hd], rfl⟩
  | sessionCheckFailure2 =>
    simp only [stepEvent, hcb, runCallback, loginFailure]
    exact ⟨hd, hrows, hpend, by rw [hd], rfl⟩
  | fetchSuccess resp =>
    simp only [stepEvent, hpend]
    exact ⟨hd, hrows, hpend, hmsg, hcb⟩
  | fetchFailure =>
    simp only [stepEvent, hpend]
    exact ⟨hd, hrows, hpend, hmsg, hcb⟩
  | viewClick href =>
    simp only [stepEvent]
    refine iterate_preserves (viewClickOnce href) (SessionQ d) ?_ st.viewHandlers st
      ⟨hd, hrows, hpend, hmsg, hcb⟩
    intro s hs
    obtain ⟨hd', hrows', hpend', hmsg', hcb'⟩ := hs
    obtain ⟨f1, f2, f3, f4, f5, _⟩ := viewClickOnce_fields href s
    exact ⟨f5.trans hd', f2.trans hrows', f3.trans hpend', f1.trans hmsg', f4.trans hcb'⟩
  | windowMessage origin data =>
    simp only [stepEvent]
    split
    · simp only [resizeIframePostedMessage]
      split
      · split
        · exact ⟨hd, hrows, hpend, hmsg, hcb⟩
        · exact ⟨hd, hrows, hpend, hmsg, hcb⟩
      · exact ⟨hd, hrows, hpend, hmsg, hcb⟩
    · exact ⟨hd, hrows, hpend, hmsg, hcb⟩
  | postUrlClick =>
    simp only [stepEvent]
    split
    · simp only [postUrl]
      split
      · exact ⟨hd, hrows, hpend, hmsg, hcb⟩
      · exact ⟨hd, hrows, hpend, hmsg, hcb⟩
    · exact ⟨hd, hrows, hpend, hmsg, hcb⟩

/-- The failed-session state persists along any trace that contains
neither a session-check success nor another DOMContentLoaded. -/
theorem sessionQ_trace (d : String) (evs : List PageEvent)
    (hevs : ∀ e ∈ evs, e ≠ PageEvent.sessionCheckSuccess ∧ e ≠ PageEvent.domReady) :
    ∀ (st : AppState), SessionQ d st → SessionQ d (stepTrace st evs) := by
  induction evs with
  | nil => intro st hq; exact hq
  | cons e evs' ih =>
    intro st hq
    have he := hevs e (List.mem_cons_self e evs')
    have hevs' : ∀ e' ∈ evs', e' ≠ PageEvent.sessionCheckSuccess ∧ e' ≠ PageEvent.domReady :=
      fun e' h' => hevs e' (List.mem_cons_of_mem _ h')
    have hstep := sessionQ_step d st e hq he.1 he.2
    simpa [stepTrace] using ih hevs' (stepEvent st e).state hstep

/-- No argument-less callback touches the iframe container. -/
theorem runCallback_container (c : CallbackId) (st : AppState) :
    (runCallback c st).state.iframeContainer = st.iframeContainer := by
  cases c <;> rfl

/-- postCompleted never touches the iframe container. -/
theorem postCompleted_container (resp : FetchResponse) (st : AppState) :
    (postCompleted resp st).state.iframeContainer = st.iframeContainer := by
  have h := (addRows_fields resp.json st).2.1
  unfold postCompleted
  rcases hres : addRows st resp.json with ⟨st2, thr⟩
  rw [hres] at h
  cases thr
  · simpa using h
  · simpa using h

/-- Delivering a fetch response never touches the iframe container. -/
theorem runFetchCallback_container (c : CallbackId) (resp : FetchResponse) (st : AppState) :
    (runFetchCallback c resp st).state.iframeContainer = st.iframeContainer := by
  cases c
  case postCompleted => exact postCompleted_container resp st
  all_goals rfl

/-- The click handler body keeps the container at one iframe at most: it
either leaves it alone or fully replaces it with a single fresh iframe. -/
theorem viewClickOnce_container_len (href : String) (st : AppState)
    (h : st.iframeContainer.length ≤ 1) :
    (viewClickOnce href st).iframeContainer.length ≤ 1 := by
  simp only [viewClickOnce]
  split
  · simp
  · simpa using h

/-- Every event of the page preserves the at-most-one-preview-iframe
bound. -/
theorem stepEvent_container_len (st : AppState) (e : PageEvent)
    (h : st.iframeContainer.length ≤ 1) :
    (stepEvent st e).state.iframeContainer.length ≤ 1 := by
  cases e with
  | domReady => simpa [stepEvent, pendingLogin] using h
  | sessionCheckSuccess =>
    simp only [stepEvent]
    match st.sessionCallbacks with
    | some (s, f1, f2) => rw [runCallback_container]; exact h
    | none => exact h
  | sessionCheckFailure1 =>
    simp only [stepEvent]
    match st.sessionCallbacks with
    | some (s, f1, f2) => rw [runCallback_container]; exact h
    | none => exact h
  | sessionCheckFailure2 =>
    simp only [stepEvent]
    match st.sessionCallbacks with
    | some (s, f1, f2) => rw [runCallback_container]; exact h
    | none => exact h
  | fetchSuccess resp =>
    simp only [stepEvent]
    match st.pendingRequest with
    | some pr => rw [runFetchCallback_container]; exact h
    | none => exact h
  | fetchFailure =>
    simp only [stepEvent]
    match st.pendingRequest with
    | some pr => exact h
    | none => exact h
  | viewClick href =>
    simp only [stepEvent]
    exact iterate_preserves (viewClickOnce href)
      (fun s => s.iframeContainer.length ≤ 1)
      (fun s hs => viewClickOnce_container_len href s hs) st.viewHandlers st h
  | windowMessage origin data =>
    simp only [stepEvent]
    split
    · simp only [resizeIframePostedMessage]
      split
      · split
        · exact h
        · simpa [setHeightFirst_length] using h
      · exact h
    · exact h
  | postUrlClick =>
    simp only [stepEvent]
    split
    · simp only [postUrl]
      split
      · exact h
      · simpa using h
    · exact h

/-- The src attribute the embedder writes on the preview iframe. -/
theorem buildIframe_src (href params app : String) :
    getAttr (buildIframe href params app).attrs "src" =
      some ("../" ++ app ++ "/show.html?" ++ params) := rfl

/-- The id attribute the embedder writes on the preview iframe. -/
theorem buildIframe_id (href params app : String) :
    getAttr (buildIframe href params app).attrs "id" = some "ifrm0" := rfl

/-! ## Claims -/

/-- Claim C1, amended: for every decoded privlyApp value that is present
and does not match the letters-only pattern, the View-link click handler
constructs no iframe and inserts none, leaving the iframe container
untouched.  (The missing-parameter case of the original claim fails: see
the counterexample, where the JS undefined coerces to the string
"undefined", which matches the pattern.) -/
theorem claim1_theorem (st : AppState) (href app : String)
    (happ : hashLookup (parameterStringToHash (paramsOf href)) "privlyApp" = some app)
    (hfail : alphaRegexTest app = false) :
    (viewClickOnce href st).iframeContainer = st.iframeContainer := by
  simp only [viewClickOnce, happ, jsStringOf, hfail]
  simp

/-- Claim C1 witness: a link whose decoded privlyApp is "foo/bar" leaves
the empty container empty. -/
theorem claim1_witness :
    (viewClickOnce "x?privlyApp=foo/bar"
        (initialState "web" "https://server.example" "https://page.example")).iframeContainer =
      (initialState "web" "https://server.example" "https://page.example").iframeContainer :=
  claim1_theorem _ _ "foo/bar" (by decide) (by decide)

/-- Claim C1 counterexample: on a link whose parameter string has no
privlyApp key at all (the claim's "missing parameter" case), the decoded
value is undefined, the regex test coerces it to "undefined" and accepts
it, and the handler does insert an iframe, with src
"../undefined/show.html?privlyDataURL=abc". -/
theorem claim1_counterexample :
    hashLookup (parameterStringToHash (paramsOf "x?privlyDataURL=abc")) "privlyApp" = none ∧
    (viewClickOnce "x?privlyDataURL=abc"
        (initialState "web" "https://server.example" "https://page.example")).iframeContainer =
      [buildIframe "x?privlyDataURL=abc" "privlyDataURL=abc" "undefined"] ∧
    getAttr (buildIframe "x?privlyDataURL=abc" "privlyDataURL=abc" "undefined").attrs "src" =
      some "../undefined/show.html?privlyDataURL=abc" := by
  decide

/-- Claim C2: for a message from the page's own origin, with the preview
iframe present and the data holding at least two comma-separated fields,
the handler sets the iframe's height style to the second field suffixed
with "px" and throws nothing; for a message from any other origin the
handler changes no state at all. -/
theorem claim2_theorem (st : AppState) (origin data f0 f1 : String) (rest : List String)
    (hifrm : (findIfrm st).isSome)
    (hsplit : jsSplit data ',' = f0 :: f1 :: rest) :
    (origin = st.pageOrigin →
       (resizeIframePostedMessage origin data st).thrown = none ∧
       getIfrmHeight (resizeIframePostedMessage origin data st).state = some (f1 ++ "px")) ∧
    (origin ≠ st.pageOrigin →
       resizeIframePostedMessage origin data st = ⟨st, none⟩) := by
  constructor
  · intro heq
    have hbeq : (origin == st.pageOrigin) = true := by simp [heq]
    rcases hf : findIfrm st with _ | el
    · rw [hf] at hifrm; simp at hifrm
    · have hv : jsAt (jsSplit data ',') 1 = f1 := by simp [jsAt, hsplit]
      constructor
      · simp [resizeIframePostedMessage, hbeq, hf]
      · simp only [resizeIframePostedMessage, hbeq, if_true, hf]
        unfold getIfrmHeight findIfrm
        rw [hv]
        exact getIfrmHeight_setHeightFirst st.iframeContainer (f1 ++ "px") hifrm
  · intro hne
    have hbeq : (origin == st.pageOrigin) = false := by
      simp only [beq_eq_false_iff_ne, ne_eq]
      exact hne
    simp [resizeIframePostedMessage, hbeq]

/-- Claim C2 witness: on a page whose origin is https://page.example with
a preview iframe present, the message "ignored,240" from that origin sets
the height to "240px", and the same message from https://evil.example
leaves the state untouched. -/
theorem claim2_witness :
    (getIfrmHeight (resizeIframePostedMessage "https://page.example" "ignored,240"
        (viewClickOnce "x?privlyApp=message"
          (initialState "web" "https://server.example" "https://page.example"))).state =
      some "240px") ∧
    (resizeIframePostedMessage "https://evil.example" "ignored,240"
        (viewClickOnce "x?privlyApp=message"
          (initialState "web" "https://server.example" "https://page.example")) =
      ⟨viewClickOnce "x?privlyApp=message"
          (initialState "web" "https://server.example" "https://page.example"), none⟩) := by
  constructor
  · exact ((claim2_theorem _ _ "ignored,240" "ignored" "240" [] (by decide) (by decide)).1
      (by decide)).2
  · exact (claim2_theorem _ _ "ignored,240" "ignored" "240" [] (by decide) (by decide)).2
      (by decide)

/-- Claim C3 exhibit: the post-list request issued by pendingPost carries
only the success continuation postCompleted - pendingPost registers no
failure continuation anywhere - so when the fetch fails the message area
keeps the empty text pendingPost wrote, never the static error text,
although the createError handler (unreachable from the fetch) would write
that exact text. -/
theorem claim3_theorem (p d o : String) :
    (stepTrace (initialState p d o)
        [PageEvent.domReady, PageEvent.sessionCheckSuccess]).pendingRequest =
      some { url := d ++ "/posts", onSuccess := CallbackId.postCompleted } ∧
    (stepEvent (stepTrace (initialState p d o)
        [PageEvent.domReady, PageEvent.sessionCheckSuccess])
        PageEvent.fetchFailure).state.messages = "" ∧
    (stepEvent (stepTrace (initialState p d o)
        [PageEvent.domReady, PageEvent.sessionCheckSuccess])
        PageEvent.fetchFailure).state.messages ≠
      "There was an error fetching your posts." ∧
    (createError (stepTrace (initialState p d o)
        [PageEvent.domReady, PageEvent.sessionCheckSuccess])).messages =
      "There was an error fetching your posts." := by
  refine ⟨rfl, rfl, ?_, rfl⟩
  intro h
  have h2 : ("" : String) = "There was an error fetching your posts." := h
  exact absurd h2 (by decide)

/-- Claim C4: when the link target decomposes as pre ++ "?" ++ post with
the first question mark after pre, and the decoded privlyApp of post is a
present value passing the letters-only test, the handler inserts exactly
one iframe whose src attribute is "../" ++ app ++ "/show.html?" ++ post. -/
theorem claim4_theorem (st : AppState) (pre post app : String)
    (hq : '?' ∉ pre.data)
    (happ : hashLookup (parameterStringToHash post) "privlyApp" = some app)
    (hre : alphaRegexTest app = true) :
    (viewClickOnce (pre ++ "?" ++ post) st).iframeContainer =
      [buildIframe (pre ++ "?" ++ post) post app] ∧
    getAttr (buildIframe (pre ++ "?" ++ post) post app).attrs "src" =
      some ("../" ++ app ++ "/show.html?" ++ post) := by
  have hp := paramsOf_concat pre post hq
  refine ⟨?_, buildIframe_src _ _ _⟩
  simp only [viewClickOnce, hp, happ, jsStringOf, hre, if_true]

/-- Claim C4 witness: the link "link?privlyApp=message&privlyDataURL=abc"
yields a single iframe with src
"../message/show.html?privlyApp=message&privlyDataURL=abc". -/
theorem claim4_witness :
    (viewClickOnce ("link" ++ "?" ++ "privlyApp=message&privlyDataURL=abc")
        (initialState "web" "https://server.example" "https://page.example")).iframeContainer =
      [buildIframe ("link" ++ "?" ++ "privlyApp=message&privlyDataURL=abc")
        "privlyApp=message&privlyDataURL=abc" "message"] ∧
    getAttr (buildIframe ("link" ++ "?" ++ "privlyApp=message&privlyDataURL=abc")
        "privlyApp=message&privlyDataURL=abc" "message").attrs "src" =
      some ("../" ++ "message" ++ "/show.html?" ++ "privlyApp=message&privlyDataURL=abc") :=
  claim4_theorem _ "link" "privlyApp=message&privlyDataURL=abc" "message"
    (by decide) (by decide) (by decide)

/-- Claim C5, amended: the manage URL applies two first-occurrence
rewrites to the decoded privlyDataURL, first "format=json" to
"format=html" and then ".json" to ".html".  When the URL ends its path in
".json" at the first occurrence and contains no "format=json", the suffix
rewrite fires alone; when the URL contains "format=json" at its first
occurrence and the rewritten URL contains no ".json" anywhere, the format
rewrite fires alone and every other query parameter is left untouched.
(Without the no-".json" proviso the original claim fails: see the
counterexample, where another parameter's ".json" is also rewritten.) -/
theorem claim5_theorem (u v : String) :
    ((∀ i, i ≤ (u.data ++ ".json".data ++ v.data).length →
        ("format=json".data).isPrefixOf ((u.data ++ ".json".data ++ v.data).drop i) = false) →
     (∀ i, i < u.data.length →
        (".json".data).isPrefixOf ((u.data ++ ".json".data ++ v.data).drop i) = false) →
     manageURLString (u ++ ".json" ++ v) = u ++ ".html" ++ v) ∧
    ((∀ i, i < u.data.length →
        ("format=json".data).isPrefixOf
          ((u.data ++ "format=json".data ++ v.data).drop i) = false) →
     (∀ i, i ≤ (u.data ++ "format=html".data ++ v.data).length →
        (".json".data).isPrefixOf
          ((u.data ++ "format=html".data ++ v.data).drop i) = false) →
     manageURLString (u ++ "format=json" ++ v) = u ++ "format=html" ++ v) := by
  constructor
  · intro h1 h2
    have hs : (u ++ ".json" ++ v).data = u.data ++ ".json".data ++ v.data := by
      rw [strApp_data, strApp_data]
    have ht : (u ++ ".html" ++ v).data = u.data ++ ".html".data ++ v.data := by
      rw [strApp_data, strApp_data]
    have step1 : replaceFirstL "format=json".data "format=html".data
        (u.data ++ ".json".data ++ v.data) = u.data ++ ".json".data ++ v.data :=
      replaceFirstL_no_occur _ _ _ h1
    have step2 : replaceFirstL ".json".data ".html".data
        (u.data ++ ".json".data ++ v.data) = u.data ++ ".html".data ++ v.data :=
      replaceFirstL_at_first _ _ _ _ (by decide) h2
    have hdata : replaceFirstL ".json".data ".html".data
        (replaceFirstL "format=json".data "format=html".data (u ++ ".json" ++ v).data) =
        (u ++ ".html" ++ v).data := by
      rw [hs, step1, step2, ht]
    exact congrArg String.mk hdata
  · intro h1 h2
    have hs : (u ++ "format=json" ++ v).data = u.data ++ "format=json".data ++ v.data := by
      rw [strApp_data, strApp_data]
    have ht : (u ++ "format=html" ++ v).data = u.data ++ "format=html".data ++ v.data := by
      rw [strApp_data, strApp_data]
    have step1 : replaceFirstL "format=json".data "format=html".data
        (u.data ++ "format=json".data ++ v.data) = u.data ++ "format=html".data ++ v.data :=
      replaceFirstL_at_first _ _ _ _ (by decide) h1
    have step2 : replaceFirstL ".json".data ".html".data
        (u.data ++ "format=html".data ++ v.data) = u.data ++ "format=html".data ++ v.data :=
      replaceFirstL_no_occur _ _ _ h2
    have hdata : replaceFirstL ".json".data ".html".data
        (replaceFirstL "format=json".data "format=html".data (u ++ "format=json" ++ v).data) =
        (u ++ "format=html" ++ v).data := by
      rw [hs, step1, step2, ht]
    exact congrArg String.mk hdata

/-- Claim C5 witness: the two exemplar rewrites of the claim, derived
from the amended theorem at its concrete decompositions. -/
theorem claim5_witness :
    manageURLString ("https://h/posts/1" ++ ".json" ++ "?x=1") =
      "https://h/posts/1" ++ ".html" ++ "?x=1" ∧
    manageURLString ("https://h/posts/1?" ++ "format=json" ++ "&x=2") =
      "https://h/posts/1?" ++ "format=html" ++ "&x=2" := by
  constructor
  · exact ( claim5_theorem "https://h/posts/1" "?x=1").1 (by decide) (by decide)
  · exact ( claim5_theorem "https://h/posts/1?" "&x=2").2 (by decide) (by decide)

/-- Claim C5 counterexample: with privlyDataURL decoding to
"https://h/posts/1?format=json&x=a.json", the code rewrites the other
query parameter x=a.json into x=a.html as well, so the result differs
from the claim's "(every other query parameter) left untouched". -/
theorem claim5_counterexample :
    manageURLString "https://h/posts/1?format=json&x=a.json" =
      "https://h/posts/1?format=html&x=a.html" ∧
    manageURLString "https://h/posts/1?format=json&x=a.json" ≠
      "https://h/posts/1?format=html&x=a.json" := by
  decide

/-- Claim C6: whichever of the two registered failure continuations the
session check fires, the dispatch is the same loginFailure outcome; the
sign-in prompt is on display after the failure and stays there, and the
post table stays empty, along any continuation of the session that fires
no session-check success and no further DOMContentLoaded. -/
theorem claim6_theorem (p d o : String) (fail : PageEvent) (rest : List PageEvent)
    (hf : fail = PageEvent.sessionCheckFailure1 ∨ fail = PageEvent.sessionCheckFailure2)
    (hr : ∀ e ∈ rest, e ≠ PageEvent.sessionCheckSuccess ∧ e ≠ PageEvent.domReady) :
    (stepTrace (initialState p d o) [PageEvent.domReady, fail]).messages = signInPrompt d ∧
    (stepTrace (stepTrace (initialState p d o) [PageEvent.domReady, fail]) rest).postsRows
      = [] ∧
    (stepTrace (stepTrace (initialState p d o) [PageEvent.domReady, fail]) rest).messages
      = signInPrompt d ∧
    stepEvent (pendingLogin (initialState p d o)) PageEvent.sessionCheckFailure1 =
      stepEvent (pendingLogin (initialState p d o)) PageEvent.sessionCheckFailure2 := by
  have hq1 : SessionQ d (stepTrace (initialState p d o) [PageEvent.domReady, fail]) := by
    rcases hf with h | h <;> subst h <;> exact ⟨rfl, rfl, rfl, rfl, rfl⟩
  have hq2 := sessionQ_trace d rest hr _ hq1
  exact ⟨hq1.2.2.2.1, hq2.2.1, hq2.2.2.2.1, rfl⟩

/-- Claim C6 witness: on a concrete page, the first failure callback
renders the prompt and a later click plus a window message leave the
table empty and the prompt in place. -/
theorem claim6_witness :
    (stepTrace (initialState "web" "https://srv" "https://o")
        [PageEvent.domReady, PageEvent.sessionCheckFailure1]).messages =
      signInPrompt "https://srv" ∧
    (stepTrace (stepTrace (initialState "web" "https://srv" "https://o")
        [PageEvent.domReady, PageEvent.sessionCheckFailure1])
        [PageEvent.viewClick "a?privlyApp=message", PageEvent.windowMessage "https://o" "x,9",
         PageEvent.fetchFailure]).postsRows = [] ∧
    (stepTrace (stepTrace (initialState "web" "https://srv" "https://o")
        [PageEvent.domReady, PageEvent.sessionCheckFailure1])
        [PageEvent.viewClick "a?privlyApp=message", PageEvent.windowMessage "https://o" "x,9",
         PageEvent.fetchFailure]).messages = signInPrompt "https://srv" ∧
    stepEvent (pendingLogin (initialState "web" "https://srv" "https://o"))
        PageEvent.sessionCheckFailure1 =
      stepEvent (pendingLogin (initialState "web" "https://srv" "https://o"))
        PageEvent.sessionCheckFailure2 :=
  claim6_theorem "web" "https://srv" "https://o" PageEvent.sessionCheckFailure1
    [PageEvent.viewClick "a?privlyApp=message", PageEvent.windowMessage "https://o" "x,9",
     PageEvent.fetchFailure]
    (Or.inl rfl) (by decide)

/-- Claim C7: a successful post-list fetch whose response holds an empty
array finishes without throwing, leaves zero rows in the post table, and
leaves the message area holding the empty text pendingPost wrote. -/
theorem claim7_theorem (p d o : String) :
    (stepEvent (stepTrace (initialState p d o)
        [PageEvent.domReady, PageEvent.sessionCheckSuccess])
        (PageEvent.fetchSuccess ⟨[]⟩)).thrown = none ∧
    (stepEvent (stepTrace (initialState p d o)
        [PageEvent.domReady, PageEvent.sessionCheckSuccess])
        (PageEvent.fetchSuccess ⟨[]⟩)).state.postsRows = [] ∧
    (stepEvent (stepTrace (initialState p d o)
        [PageEvent.domReady, PageEvent.sessionCheckSuccess])
        (PageEvent.fetchSuccess ⟨[]⟩)).state.messages = "" :=
  ⟨rfl, rfl, rfl⟩

/-- Claim C8: every page event preserves the at-most-one-preview-iframe
bound on the container, and the click handler body either leaves the
container untouched or replaces its whole contents with exactly one
fresh iframe, which carries the fixed identifier ifrm0. -/
theorem claim8_theorem (st : AppState) (e : PageEvent) (href : String)
    (hlen : st.iframeContainer.length ≤ 1) :
    (stepEvent st e).state.iframeContainer.length ≤ 1 ∧
    ((viewClickOnce href st).iframeContainer = st.iframeContainer ∨
      (viewClickOnce href st).iframeContainer =
        [buildIframe href (paramsOf href)
          (jsStringOf (hashLookup (parameterStringToHash (paramsOf href)) "privlyApp"))]) ∧
    getAttr (buildIframe href (paramsOf href)
        (jsStringOf (hashLookup (parameterStringToHash (paramsOf href)) "privlyApp"))).attrs
        "id" = some "ifrm0" := by
  refine ⟨stepEvent_container_len st e hlen, ?_, buildIframe_id _ _ _⟩
  simp only [viewClickOnce]
  split
  · right; rfl
  · left; rfl

/-- Claim C8 witness: from a state already holding one iframe, a further
view click still leaves at most one iframe, and the fresh iframe carries
the identifier ifrm0. -/
theorem claim8_witness :
    (stepEvent (viewClickOnce "x?privlyApp=message"
        (initialState "web" "https://srv" "https://o"))
        (PageEvent.viewClick "y?privlyApp=other")).state.iframeContainer.length ≤ 1 ∧
    ((viewClickOnce "y?privlyApp=other"
        (viewClickOnce "x?privlyApp=message"
          (initialState "web" "https://srv" "https://o"))).iframeContainer =
        (viewClickOnce "x?privlyApp=message"
          (initialState "web" "https://srv" "https://o")).iframeContainer ∨
      (viewClickOnce "y?privlyApp=other"
        (viewClickOnce "x?privlyApp=message"
          (initialState "web" "https://srv" "https://o"))).iframeContainer =
        [buildIframe "y?privlyApp=other" (paramsOf "y?privlyApp=other")
          (jsStringOf (hashLookup (parameterStringToHash (paramsOf "y?privlyApp=other"))
            "privlyApp"))]) ∧
    getAttr (buildIframe "y?privlyApp=other" (paramsOf "y?privlyApp=other")
        (jsStringOf (hashLookup (parameterStringToHash (paramsOf "y?privlyApp=other"))
          "privlyApp"))).attrs "id" = some "ifrm0" :=
  claim8_theorem (viewClickOnce "x?privlyApp=message"
      (initialState "web" "https://srv" "https://o"))
    (PageEvent.viewClick "y?privlyApp=other") "y?privlyApp=other" (by decide)

/-- Claim C9: with no preview iframe in the container, a same-origin
window message makes the resize handler throw on the null element, and a
posting-button click makes postUrl throw on the null element, each
leaving the state unchanged; with a preview iframe present, neither
throws. -/
theorem claim9_theorem (st : AppState) (origin data : String) :
    (findIfrm st = none →
       (origin = st.pageOrigin →
          resizeIframePostedMessage origin data st = ⟨st, some JsError.nullDeref⟩) ∧
       postUrl st = ⟨st, some JsError.nullDeref⟩) ∧
    ((findIfrm st).isSome →
       (resizeIframePostedMessage origin data st).thrown = none ∧
       (postUrl st).thrown = none) := by
  constructor
  · intro hnone
    constructor
    · intro heq
      have hbeq : (origin == st.pageOrigin) = true := by simp [heq]
      simp [resizeIframePostedMessage, hbeq, hnone]
    · simp [postUrl, hnone]
  · intro hsome
    rcases hf : findIfrm st with _ | el
    · rw [hf] at hsome; simp at hsome
    · constructor
      · by_cases hbeq : (origin == st.pageOrigin) = true
        · simp [resizeIframePostedMessage, hbeq, hf]
        · simp only [Bool.not_eq_true] at hbeq
          simp [resizeIframePostedMessage, hbeq]
      · simp [postUrl, hf]

/-- Claim C9 witness: on the fresh page the same-origin message "a,b" and
the posting click both throw on the missing iframe; once a preview
iframe exists neither throws. -/
theorem claim9_witness :
    (resizeIframePostedMessage "https://o" "a,b" (initialState "web" "https://srv" "https://o") =
       ⟨initialState "web" "https://srv" "https://o", some JsError.nullDeref⟩) ∧
    (postUrl (initialState "web" "https://srv" "https://o") =
       ⟨initialState "web" "https://srv" "https://o", some JsError.nullDeref⟩) ∧
    (resizeIframePostedMessage "https://o" "a,b"
        (viewClickOnce "x?privlyApp=message"
          (initialState "web" "https://srv" "https://o"))).thrown = none ∧
    (postUrl (viewClickOnce "x?privlyApp=message"
        (initialState "web" "https://srv" "https://o"))).thrown = none := by
  refine ⟨?_, ?_, ?_, ?_⟩
  · exact ((claim9_theorem (initialState "web" "https://srv" "https://o") "https://o" "a,b").1
      (by decide)).1 (by decide)
  · exact ((claim9_theorem (initialState "web" "https://srv" "https://o") "https://o" "a,b").1
      (by decide)).2
  · exact ((claim9_theorem (viewClickOnce "x?privlyApp=message"
      (initialState "web" "https://srv" "https://o")) "https://o" "a,b").2 (by decide)).1
  · exact ((claim9_theorem (viewClickOnce "x?privlyApp=message"
      (initialState "web" "https://srv" "https://o")) "https://o" "a,b").2 (by decide)).2

/-- k invocations of the postCompleted callback, one per successful
post-list fetch. -/
def postCompletedIter (resp : FetchResponse) (k : Nat) (st : AppState) : AppState :=
  (fun s => (postCompleted resp s).state)^[k] st

/-- Claim C10: each postCompleted invocation that finishes its row loop
registers one more delegated view-link handler, so after k invocations
the handler count has grown by k, and a single click then runs the
preview-embedding body once per registered handler: handler-count many
times, not once. -/
theorem claim10_theorem (st : AppState) (resp : FetchResponse) (k : Nat) (href : String)
    (hall : ∀ r ∈ resp.json, (rowOf r).isSome) :
    (postCompletedIter resp k st).viewHandlers = st.viewHandlers + k ∧
    stepEvent (postCompletedIter resp k st) (PageEvent.viewClick href) =
      ⟨(viewClickOnce href)^[st.viewHandlers + k] (postCompletedIter resp k st), none⟩ := by
  have hstep : ∀ s : AppState, (postCompleted resp s).state.viewHandlers = s.viewHandlers + 1 := by
    intro s
    have hok := (addRows_ok resp.json hall s).1
    have hvh := (addRows_fields resp.json s).2.2.1
    unfold postCompleted
    rcases hres : addRows s resp.json with ⟨st2, thr⟩
    rw [hres] at hok hvh
    cases thr
    · simpa using hvh
    · simp at hok
  have hiter : ∀ (n : Nat) (s : AppState),
      (postCompletedIter resp n s).viewHandlers = s.viewHandlers + n := by
    intro n
    induction n with
    | zero => intro s; simp [postCompletedIter]
    | succ m ih =>
      intro s
      unfold postCompletedIter at ih ⊢
      rw [Function.iterate_succ_apply]
      rw [ih ((postCompleted resp s).state), hstep s]
      omega
  refine ⟨hiter k st, ?_⟩
  simp only [stepEvent, hiter k st]

/-- Claim C10 witness: two empty-response fetch completions leave two
registered handlers on the fresh page, and a click then iterates the
body twice. -/
theorem claim10_witness :
    (postCompletedIter ⟨[]⟩ 2 (initialState "web" "https://srv" "https://o")).viewHandlers =
      (initialState "web" "https://srv" "https://o").viewHandlers + 2 ∧
    stepEvent (postCompletedIter ⟨[]⟩ 2 (initialState "web" "https://srv" "https://o"))
        (PageEvent.viewClick "x?privlyApp=message") =
      ⟨(viewClickOnce "x?privlyApp=message")^[(initialState "web" "https://srv" "https://o").viewHandlers + 2]
        (postCompletedIter ⟨[]⟩ 2 (initialState "web" "https://srv" "https://o")), none⟩ :=
  claim10_theorem (initialState "web" "https://srv" "https://o") ⟨[]⟩ 2
    "x?privlyApp=message" (by decide)
